import Mathlib

/-!
Verification of the topology-aware root-cause inference engine of the
`antigravity-ops-agent` repository.

The first part shallowly embeds the code of `src/inference_engine.py`
(class `LogicalRCA`) and `src/data.py` (`NetworkNode`,
`validate_topology`, `load_topology_from_json`).  Every probability the
engine manipulates is an exact multiple of 0.01, so probabilities are
modelled in integer hundredths (0.2 ↦ 20, 0.97 ↦ 97, 1.0 ↦ 100 — all
comparisons and thresholds of the source are preserved by this
scaling); Python dictionaries are modelled as association lists that
preserve insertion order, and the two external collaborators of the
engine (the regex-based credential masking `_sanitize_text` and the
LLM call issued by `analyze_redundancy_depth`) as function parameters
of the engine record, exactly as the spec declares them out-of-scope
collaborators.

The second part models, from the spec's words, the pipeline components
(`SignatureClassifier`, `CascadeAnalyzer`, `RedundancyPropagator`,
`CandidateRanker`) whose implementation (`infer_root_cause` /
`logic.CausalInferenceEngine`) is referenced by the callers in
`src/app.py` and `src/dashboard.py` but is not itself part of `src/`.
-/

namespace AIOps

/-- Substring test, Python's `needle in hay`. -/
def strContainsB (hay needle : String) : Bool :=
  decide (needle.toList <:+: hay.toList)

/-- `HealthStatus` enum of `inference_engine.py` (NORMAL="GREEN",
WARNING="YELLOW", CRITICAL="RED"). -/
inductive HealthStatus where
  | NORMAL
  | WARNING
  | CRITICAL
deriving DecidableEq, Repr

/-- `NetworkNode` of `src/data.py`.  The open `metadata` dictionary is
modelled by the single field the engine reads from it:
`metadata.hw_inventory.psu_count` (`none` when the key is absent). -/
structure NetworkNode where
  id : String
  layer : Int := 99
  type : String := "UNKNOWN"
  parent_id : Option String := none
  redundancy_group : Option String := none
  psu_count : Option Int := none
deriving DecidableEq, Repr

/-- A topology is the `Dict[str, NetworkNode]` of the source: an
insertion-ordered association list with unique keys. -/
abbrev Topology := List (String × NetworkNode)

/-- One alarm event, `logic.Alarm(device_id, message, severity)`;
`analyze` reads only `device_id` and `message`. -/
structure Alarm where
  device_id : String
  message : String
  severity : String := ""
deriving DecidableEq, Repr

/-- One root-cause candidate dictionary produced by
`LogicalRCA.analyze`; `prob` is the probability in hundredths
(`20` stands for the source's `0.2`). -/
structure Candidate where
  id : String
  label : String
  prob : Nat
  type : String
  tier : Nat
  reason : String
deriving DecidableEq, Repr

/-- Result dictionary of `analyze_redundancy_depth`. -/
structure RCAResult where
  status : HealthStatus
  reason : String
  impact_type : String
deriving DecidableEq, Repr

/-- Parsed JSON reply of the external LLM judgment
(`{"status": ..., "reason": ..., "impact_type": ...}`). -/
structure LLMReply where
  status : String
  reason : String
  impact_type : String
deriving DecidableEq, Repr

/-- The `LogicalRCA` engine.  `sanitize` stands for the collaborator
`_sanitize_text` (regex credential masking, out of scope per the spec);
`oracle` stands for the LLM collaborator: `none` models a missing
`GOOGLE_API_KEY` (`_ensure_api_configured` returns `False`), `some f`
with `f dev alerts = .error e` models an exception raised by the call
(timeout, malformed response), and `.ok r` a parsed JSON verdict. -/
structure LogicalRCA where
  topology : Topology
  sanitize : String → String := id
  oracle : Option (String → List String → Except String LLMReply) := none

/-- `_get_device_info`: `self.topology.get(device_id, {})`. -/
def getDeviceNode (e : LogicalRCA) (device_id : String) : Option NetworkNode :=
  e.topology.lookup device_id

/-- `_get_parent_id`. -/
def getParentId (e : LogicalRCA) (device_id : String) : Option String :=
  match getDeviceNode e device_id with
  | some n => n.parent_id
  | none => none

/-- `_get_psu_count`: `metadata.hw_inventory.psu_count`, or `default`
when the device, the key, or a convertible value is absent. -/
def getPsuCount (e : LogicalRCA) (device_id : String) (default : Int) : Int :=
  match getDeviceNode e device_id with
  | some n => n.psu_count.getD default
  | none => default

/-- Maps the `status` string of the LLM reply to `HealthStatus`
(`str(result_json.get("status", "CRITICAL")).upper()` then the
GREEN/NORMAL and YELLOW/WARNING buckets, anything else CRITICAL). -/
def statusFromString (s : String) : HealthStatus :=
  let u := s.toUpper
  if u = "GREEN" ∨ u = "NORMAL" then .NORMAL
  else if u = "YELLOW" ∨ u = "WARNING" then .WARNING
  else .CRITICAL

/-- The `psu_single_fail` boolean of `analyze_redundancy_depth`. -/
def psuSingleFailB (joined : String) : Bool :=
  (strContainsB joined "Power Supply" && strContainsB joined "Failed"
      && !strContainsB joined "Dual")
    || (strContainsB joined "PSU" && strContainsB joined "Fail"
      && !strContainsB joined "Dual")

/-- `LogicalRCA.analyze_redundancy_depth`: local safety rules, then
delegation to the LLM collaborator, with the fixed fallbacks of the
source on missing key and on exceptions. -/
def analyzeRedundancyDepth (e : LogicalRCA) (device_id : String)
    (alerts : List String) : RCAResult :=
  if alerts.isEmpty then
    ⟨.NORMAL, "No active alerts detected.", "NONE"⟩
  else
    let safe_alerts := alerts.map e.sanitize
    let joined := " ".intercalate safe_alerts
    if strContainsB joined "Dual Loss" || strContainsB joined "Device Down"
        || strContainsB joined "Thermal Shutdown" then
      ⟨.CRITICAL, "Dual PSU loss / device down detected (local safety rule).",
        "Hardware/Physical"⟩
    else
      let psu_count := getPsuCount e device_id 1
      if psuSingleFailB joined then
        if psu_count ≥ 2 then
          ⟨.WARNING,
            "Single PSU failure with redundancy (psu_count=" ++ toString psu_count
              ++ ") (local safety rule).",
            "Hardware/Redundancy"⟩
        else
          ⟨.CRITICAL,
            "Single PSU failure without redundancy (psu_count=" ++ toString psu_count
              ++ ") (local safety rule).",
            "Hardware/Physical"⟩
      else
        match e.oracle with
        | none =>
          ⟨.WARNING, "API key not configured. Manual analysis required.", "UNKNOWN"⟩
        | some f =>
          match f device_id safe_alerts with
          | .error emsg =>
            ⟨.WARNING, "AI Analysis Failed: " ++ emsg, "AI_ERROR"⟩
          | .ok r => ⟨statusFromString r.status, r.reason, r.impact_type⟩

/-- One step of building `msg_map`:
`msg_map.setdefault(a.device_id, []).append(a.message)` on an
insertion-ordered dictionary. -/
def addAlarm (m : List (String × List String)) (a : Alarm) :
    List (String × List String) :=
  match m with
  | [] => [(a.device_id, [a.message])]
  | (k, ms) :: rest =>
    if k = a.device_id then (k, ms ++ [a.message]) :: rest
    else (k, ms) :: addAlarm rest a

/-- `msg_map : device_id -> [messages...]`, in device first-arrival
order, each message list in arrival order. -/
def groupMessages (alarms : List Alarm) : List (String × List String) :=
  alarms.foldl addAlarm []

/-- The confidence mapping of step 3 of `analyze`: probability and tier
from the `analyze_redundancy_depth` result. -/
def probTier (analysis : RCAResult) : Nat × Nat :=
  if analysis.impact_type = "UNKNOWN"
      ∧ strContainsB analysis.reason "API key not configured" then
    (50, 3)
  else
    match analysis.status with
    | .CRITICAL => (90, 1)
    | .WARNING => (70, 2)
    | .NORMAL => (30, 3)

/-- `parent_is_alarmed` closure of `analyze` (`bool(p and p in
alarmed_ids)`; the empty string is falsy in Python). -/
def parentIsAlarmed (e : LogicalRCA) (alarmed : List String)
    (device_id : String) : Bool :=
  match getParentId e device_id with
  | some p => p ≠ "" && alarmed.contains p
  | none => false

/-- Body of the per-device loop of `analyze`. -/
def mkCandidate (e : LogicalRCA) (alarmed : List String)
    (entry : String × List String) : Candidate :=
  let device_id := entry.1
  let messages := entry.2
  if (messages.any fun m => strContainsB m "Unreachable")
      && parentIsAlarmed e alarmed device_id then
    let p := (getParentId e device_id).getD ""
    ⟨device_id, " / ".intercalate messages, 20, "Network/Unreachable", 3,
      "Downstream unreachable due to upstream alarm (parent=" ++ p ++ ")."⟩
  else
    let analysis := analyzeRedundancyDepth e device_id messages
    let pt := probTier analysis
    ⟨device_id, " / ".intercalate messages, pt.1, analysis.impact_type, pt.2,
      analysis.reason⟩

/-- Stable insertion into a list already arranged by `before`:
`c` is placed after every element `x` with `before x c`. -/
def insertBy {α : Type} (before : α → α → Bool) (c : α) : List α → List α
  | [] => [c]
  | x :: xs => if before x c then x :: insertBy before c xs else c :: x :: xs

/-- Stable sort (the elements inserted left to right keep their
relative order among ties), mirroring Python's stable `list.sort`. -/
def sortBy {α : Type} (before : α → α → Bool) : List α → List α
  | [] => []
  | x :: xs => insertBy before x (sortBy before xs)

/-- `results.sort(key=lambda x: x["prob"], reverse=True)`: an element
stays before `c` exactly when its probability is strictly larger. -/
def probBefore (x c : Candidate) : Bool :=
  decide (x.prob > c.prob)

/-- `LogicalRCA.analyze`. -/
def analyze (e : LogicalRCA) (alarms : List Alarm) : List Candidate :=
  if alarms.isEmpty then
    [⟨"SYSTEM", "No alerts detected", 0, "Normal", 0, "No active alerts detected."⟩]
  else
    let msg_map := groupMessages alarms
    let alarmed := msg_map.map Prod.fst
    let results := msg_map.map (mkCandidate e alarmed)
    sortBy probBefore results

/-! ### `src/data.py`: topology validation and loading -/

/-- `_has_circular_reference`, with explicit fuel.  The Python
recursion adds a fresh topology id to `visited` at every step, so it
terminates within `|topology| + 2` calls; the fuel is chosen that large
and its exhaustion (unreachable from `hasCircularReference`) is mapped
to `true`. -/
def hasCircFuel (topo : Topology) : Nat → NetworkNode → List String → Bool
  | 0, _, _ => true
  | fuel + 1, node, visited =>
    if node.id ∈ visited then true
    else
      match node.parent_id with
      | none => false
      | some p =>
        if p = "" then false
        else
          match topo.lookup p with
          | some parent => hasCircFuel topo fuel parent (node.id :: visited)
          | none => false

/-- `_has_circular_reference(node, topology)`. -/
def hasCircularReference (node : NetworkNode) (topo : Topology) : Bool :=
  hasCircFuel topo (topo.length + 2) node []

/-- The issues `validate_topology` records for one `(node_id, node)`
entry: id mismatch, dangling parent reference, circular reference. -/
def itemIssues (topo : Topology) (entry : String × NetworkNode) : List String :=
  let node_id := entry.1
  let node := entry.2
  (if node.id ≠ node_id then ["Node ID mismatch: " ++ node_id] else [])
    ++ (match node.parent_id with
        | some p =>
          if p ≠ "" ∧ (topo.lookup p).isNone then
            ["Node " ++ node_id ++ " has invalid parent: " ++ p]
          else []
        | none => [])
    ++ (if hasCircularReference node topo then
          ["Circular reference detected: " ++ node_id]
        else [])

/-- The full `issues` list accumulated by `validate_topology`. -/
def topologyIssues (topo : Topology) : List String :=
  topo.flatMap (itemIssues topo)

/-- `validate_topology`: logs every issue as a warning and returns
`False` when any issue was found — it does not raise. -/
def validateTopology (topo : Topology) : Bool :=
  (topologyIssues topo).isEmpty

/-- The object-conversion and validation tail of
`load_topology_from_json`, after the JSON file has been parsed into
node entries: when the topology is non-empty, `validate_topology` is
called but its return value is discarded, and the topology is returned
regardless. -/
def loadTopology (topo : Topology) : Topology :=
  if topo.isEmpty then topo
  else
    let _valid := validateTopology topo
    topo

/-! ### Spec-modelled engine components

`src/app.py` calls `logic_engine.infer_root_cause(msg_map)` and reads
`verification_log` and `Network/Secondary` candidates from its output,
and `src/dashboard.py` special-cases `Network/SilentFailure`; the code
implementing those outputs (`infer_root_cause` and the
`logic.CausalInferenceEngine` module) is not part of `src/`.  The
components below are therefore modelled from the spec's words
(§4.3 SignatureClassifier, §4.4 CascadeAnalyzer,
§4.5 RedundancyPropagator, §4.6 CandidateRanker). -/

namespace SpecModel

/-- Modelled from the spec: a spec §3 Candidate, with the evidence list
and the optional `verificationLog` (empty list = absent) of the
silent-failure path, produced by the engine missing from `src/`. -/
structure SpecCandidate where
  deviceId : String
  type : String
  label : String
  probability : Nat
  tier : Nat
  evidence : List String
  verificationLog : List String
deriving DecidableEq, Repr

/-- Modelled from the spec: one failure signature of §4.3 — a predicate
over the joined lower-cased alarm text, a base score, a type tag and a
label. -/
structure Signature where
  pred : String → Bool
  base : Nat
  type : String
  label : String

/-- Modelled from the spec: character-wise lower-casing of the
evidence text. -/
def lowerStr (s : String) : String :=
  ⟨s.data.map Char.toLower⟩

/-- Modelled from the spec: §4.3 rule 1 — combined power-supply and
fan failure, base 1.0 (100 hundredths). -/
def sigMultiFail : Signature :=
  ⟨fun t => strContainsB t "power supply" && strContainsB t "fan",
    100, "Hardware/Critical_Multi_Fail", "Combined power and fan failure"⟩

/-- Modelled from the spec: §4.3 rule 2 — power-supply failure or
explicit device-down, base 0.95. -/
def sigPhysical : Signature :=
  ⟨fun t => strContainsB t "power supply" || strContainsB t "device down",
    95, "Hardware/Physical", "Power supply failure / device down"⟩

/-- Modelled from the spec: §4.3 rule 3 — interface-down /
connection-lost / heartbeat-loss, base fixed at 0.90 of the spec's
0.85–0.90 range. -/
def sigLink : Signature :=
  ⟨fun t => strContainsB t "interface down" || strContainsB t "connection lost"
      || strContainsB t "heartbeat loss",
    90, "Network/Link", "Link failure"⟩

/-- Modelled from the spec: §4.3 rule 4 — fan failure alone,
base 0.70. -/
def sigFan : Signature :=
  ⟨fun t => strContainsB t "fan", 70, "Hardware/Fan", "Fan failure"⟩

/-- Modelled from the spec: §4.3 rule 5 — BGP/OSPF/config keywords,
base 0.60. -/
def sigConfig : Signature :=
  ⟨fun t => strContainsB t "bgp" || strContainsB t "ospf"
      || strContainsB t "config",
    60, "Config/Software", "Routing or configuration issue"⟩

/-- Modelled from the spec: §4.3 rule 6 — CPU/memory utilization
keywords, base 0.50. -/
def sigResource : Signature :=
  ⟨fun t => strContainsB t "cpu" || strContainsB t "memory",
    50, "Resource/Capacity", "Resource utilization high"⟩

/-- Modelled from the spec: the canonical signature priority list of
§4.3, highest specificity first. -/
def signatures : List Signature :=
  [sigMultiFail, sigPhysical, sigLink, sigFan, sigConfig, sigResource]

/-- Modelled from the spec: effective score of a matching signature,
`min(baseScore + 0.02 × alarmCount, 1.0)`. -/
def effScore (s : Signature) (alarmCount : Nat) : Nat :=
  min (s.base + 2 * alarmCount) 100

/-- Modelled from the spec: candidate tier bucket (1 = highest urgency)
from the candidate's score; the spec leaves the exact bucketing to the
implementation. -/
def tierOf (score : Nat) : Nat :=
  if score > 80 then 1 else if score > 50 then 2 else 3

/-- Modelled from the spec: one comparison step of the winner
selection — a later signature replaces the current best only when its
effective score is strictly higher (ties keep the earlier, i.e. the
first in priority order). -/
def sigStep (count : Nat) (acc : Option Signature) (s : Signature) :
    Option Signature :=
  match acc with
  | none => some s
  | some b => if effScore s count > effScore b count then some s else acc

/-- Modelled from the spec: pick the matching signature with the
highest effective score, ties resolved in favour of the first signature
in priority order. -/
def bestSignature (matched : List Signature) (count : Nat) : Option Signature :=
  matched.foldl (sigStep count) none

/-- Modelled from the spec: §4.3 SignatureClassifier for one device —
evaluate the ordered signatures against the joined lower-cased
evidence; with no match, an `Unknown/Other` candidate at 0.3. -/
def classifyDevice (deviceId : String) (messages : List String) : SpecCandidate :=
  let text := lowerStr (" ".intercalate messages)
  let count := messages.length
  match bestSignature (signatures.filter (fun s => s.pred text)) count with
  | some s =>
    let score := effScore s count
    ⟨deviceId, s.type, s.label, score, tierOf score, messages, []⟩
  | none =>
    ⟨deviceId, "Unknown/Other", "Unclassified evidence", 30, 3,
      messages, []⟩

/-- Modelled from the spec: a "connection lost / interface down class
event" (§4.4), case-insensitively. -/
def isLossMsgB (m : String) : Bool :=
  strContainsB (lowerStr m) "connection lost"
    || strContainsB (lowerStr m) "interface down"

/-- Modelled from the spec: did this device report a loss-of-contact
event in the batch. -/
def deviceLostB (msgMap : List (String × List String)) (deviceId : String) : Bool :=
  ((msgMap.lookup deviceId).getD []).any isLossMsgB

/-- Modelled from the spec: number of direct children of `parentId`
that reported a loss-of-contact event. -/
def lossChildCount (topo : List NetworkNode) (msgMap : List (String × List String))
    (parentId : String) : Nat :=
  topo.countP fun n => n.parent_id == some parentId && deviceLostB msgMap n.id

/-- Modelled from the spec: the synthesized multi-line diagnostic trace
attached to a silent-failure candidate (§4.4). -/
def silentLog (parentId : String) (n : Nat) : List String :=
  ["Detected " ++ toString n ++ " downstream loss-of-contact events",
    "Aggregator node identified: " ++ parentId,
    "Active probe (simulated): ping " ++ parentId,
    "Probe result (simulated): timeout - node unresponsive"]

/-- Modelled from the spec: §4.4 CascadeAnalyzer — every node with at
least 2 children reporting loss events is inferred silently failed:
an existing candidate is overwritten to probability 0.99 with the
silent-failure type and a verification log, a missing one is created
fresh at 0.99 with type `Network/Silent`. -/
def cascadeAnalyze (topo : List NetworkNode) (msgMap : List (String × List String))
    (cands : List SpecCandidate) : List SpecCandidate :=
  let silentParents := (topo.map NetworkNode.id).filter
    (fun pid => decide (2 ≤ lossChildCount topo msgMap pid))
  let updated := cands.map fun c =>
    if c.deviceId ∈ silentParents then
      { c with
          probability := 99,
          type := "Network/Silent",
          label := "Silent failure inferred from downstream loss",
          tier := 1,
          verificationLog := silentLog c.deviceId (lossChildCount topo msgMap c.deviceId) }
    else c
  let fresh := (silentParents.filter
      (fun pid => !(cands.any fun c => c.deviceId == pid))).map
    fun pid =>
      ⟨pid, "Network/Silent", "Silent failure inferred from downstream loss",
        99, 1, ["Inferred from downstream loss-of-contact events"],
        silentLog pid (lossChildCount topo msgMap pid)⟩
  updated ++ fresh

/-- Modelled from the spec: node lookup in the flat node collection of
§4.1. -/
def lookupNode (topo : List NetworkNode) (deviceId : String) : Option NetworkNode :=
  topo.find? fun n => n.id == deviceId

/-- Modelled from the spec: the parent accessor of §4.1. -/
def parentOf (topo : List NetworkNode) (deviceId : String) : Option String :=
  (lookupNode topo deviceId).bind NetworkNode.parent_id

/-- Modelled from the spec: does the parent chain of `d` reach `anc`
within `fuel` steps (the graph is a validated forest, so
`|topo| + 1` fuel covers every chain). -/
def hasAncestorB (topo : List NetworkNode) : Nat → String → String → Bool
  | 0, _, _ => false
  | fuel + 1, d, anc =>
    match parentOf topo d with
    | none => false
    | some p => p == anc || hasAncestorB topo fuel p anc

/-- Modelled from the spec: `d ∈ Descendants(anc)` (§4.1). -/
def isDescendantB (topo : List NetworkNode) (d anc : String) : Bool :=
  hasAncestorB topo (topo.length + 1) d anc

/-- Modelled from the spec: does `d` hold a confirmed (probability
> 0.8) candidate (§4.5). -/
def confirmedFor (cands : List SpecCandidate) (d : String) : Bool :=
  cands.any fun c => c.deviceId == d && decide (c.probability > 80)

/-- Modelled from the spec: §4.5 suppression gate — propagation from a
root-cause node is allowed only when it has no redundancy group, or
every redundancy partner is itself a confirmed root cause. -/
def redundancyOpen (topo : List NetworkNode) (cands : List SpecCandidate)
    (rootId : String) : Bool :=
  match lookupNode topo rootId with
  | none => true
  | some n =>
    match n.redundancy_group with
    | none => true
    | some g =>
      (topo.filter fun m => m.redundancy_group == some g && m.id != rootId).all
        fun m => confirmedFor cands m.id

/-- Modelled from the spec: is `d` an impact-propagation target — a
descendant of some confirmed, non-suppressed root cause, not itself
holding a confirmed candidate. -/
def impactedB (topo : List NetworkNode) (cands : List SpecCandidate)
    (d : String) : Bool :=
  (cands.any fun r =>
      decide (r.probability > 80) && redundancyOpen topo cands r.deviceId
        && isDescendantB topo d r.deviceId)
    && !confirmedFor cands d

/-- Modelled from the spec: §4.5 RedundancyPropagator — downgrade an
impacted descendant's existing lower-confidence candidate to
`Network/Secondary` at probability 0.5, and create a fresh
`Network/Unreachable` candidate at 0.5 for impacted descendants without
one. -/
def propagate (topo : List NetworkNode) (cands : List SpecCandidate) :
    List SpecCandidate :=
  let downgraded := cands.map fun c =>
    if impactedB topo cands c.deviceId && decide (c.probability ≤ 80) then
      { c with
          type := "Network/Secondary",
          label := "impacted by upstream failure",
          probability := 50 }
    else c
  let newOnes := ((topo.map NetworkNode.id).filter fun d =>
      impactedB topo cands d && !(cands.any fun c => c.deviceId == d)).map
    fun d =>
      ⟨d, "Network/Unreachable", "Unreachable due to upstream failure",
        50, 3, ["Parent node failure"], []⟩
  downgraded ++ newOnes

/-- Modelled from the spec: the total order of §4.6 CandidateRanker —
probability descending, then tier ascending, then deviceId ascending;
`specBefore x c` holds when `x` strictly precedes `c`. -/
def specBefore (x c : SpecCandidate) : Bool :=
  decide (x.probability > c.probability)
    || (x.probability == c.probability
      && (decide (x.tier < c.tier)
        || (x.tier == c.tier && decide (x.deviceId < c.deviceId))))

/-- Modelled from the spec: the classifier applied to every device with
evidence. -/
def classifyAll (msgMap : List (String × List String)) : List SpecCandidate :=
  msgMap.map fun entry => classifyDevice entry.1 entry.2

/-- Modelled from the spec: candidate set after classification and
silent-failure analysis. -/
def candsAfterCascade (topo : List NetworkNode) (alarms : List Alarm) :
    List SpecCandidate :=
  let msgMap := groupMessages alarms
  cascadeAnalyze topo msgMap (classifyAll msgMap)

/-- Modelled from the spec: the full analysis pipeline §2/§4.6 —
ingest, classify, silent-failure analysis, redundancy propagation,
deterministic ranking, with the synthetic `System`/`Normal` candidate
when no candidate was produced. -/
def specAnalyze (topo : List NetworkNode) (alarms : List Alarm) :
    List SpecCandidate :=
  let systemNormal : SpecCandidate :=
    ⟨"System", "Normal", "No alerts detected", 0, 3, [], []⟩
  if alarms.isEmpty then [systemNormal]
  else
    let ranked := sortBy specBefore (propagate topo (candsAfterCascade topo alarms))
    if ranked.isEmpty then [systemNormal] else ranked

end SpecModel

/-! ### Helper lemmas -/

theorem mem_keys_addAlarm (m : List (String × List String)) (a : Alarm)
    (x : String) :
    x ∈ (addAlarm m a).map Prod.fst ↔ x ∈ m.map Prod.fst ∨ x = a.device_id := by
  induction m with
  | nil => simp [addAlarm]
  | cons kv rest ih =>
    obtain ⟨k, ms⟩ := kv
    by_cases hk : k = a.device_id
    · subst hk
      simp [addAlarm]
      tauto
    · simp [addAlarm, hk, ih]
      tauto

theorem nodup_keys_addAlarm (m : List (String × List String)) (a : Alarm)
    (h : (m.map Prod.fst).Nodup) : ((addAlarm m a).map Prod.fst).Nodup := by
  induction m with
  | nil => simp [addAlarm]
  | cons kv rest ih =>
    obtain ⟨k, ms⟩ := kv
    simp only [List.map_cons, List.nodup_cons] at h
    by_cases hk : k = a.device_id
    · subst hk
      simp [addAlarm, List.nodup_cons, h.1, h.2]
    · simp only [addAlarm, if_neg hk, List.map_cons, List.nodup_cons]
      refine ⟨?_, ih h.2⟩
      rw [mem_keys_addAlarm]
      rintro (hmem | hmem)
      · exact h.1 hmem
      · exact hk hmem

theorem mem_keys_foldl (alarms : List Alarm) (m : List (String × List String))
    (x : String) :
    x ∈ ((alarms.foldl addAlarm m).map Prod.fst) ↔
      x ∈ m.map Prod.fst ∨ x ∈ alarms.map Alarm.device_id := by
  induction alarms generalizing m with
  | nil => simp
  | cons a rest ih =>
    simp only [List.foldl_cons, ih, mem_keys_addAlarm, List.map_cons,
      List.mem_cons]
    tauto

theorem mem_keys_groupMessages (alarms : List Alarm) (x : String) :
    x ∈ (groupMessages alarms).map Prod.fst ↔ x ∈ alarms.map Alarm.device_id := by
  rw [groupMessages, mem_keys_foldl]
  simp

theorem nodup_keys_foldl (alarms : List Alarm) (m : List (String × List String))
    (h : (m.map Prod.fst).Nodup) :
    ((alarms.foldl addAlarm m).map Prod.fst).Nodup := by
  induction alarms generalizing m with
  | nil => exact h
  | cons a rest ih => exact ih _ (nodup_keys_addAlarm m a h)

theorem nodup_keys_groupMessages (alarms : List Alarm) :
    ((groupMessages alarms).map Prod.fst).Nodup :=
  nodup_keys_foldl alarms [] (by simp)

theorem groupMessages_nil_iff (alarms : List Alarm) :
    groupMessages alarms = [] ↔ alarms = [] := by
  constructor
  · intro h
    cases alarms with
    | nil => rfl
    | cons a rest =>
      exfalso
      have := (mem_keys_groupMessages (a :: rest) a.device_id).mpr (by simp)
      rw [h] at this
      simp at this
  · rintro rfl
    rfl

theorem length_groupMessages (alarms : List Alarm) :
    (groupMessages alarms).length = (alarms.map Alarm.device_id).toFinset.card := by
  have hkeys : ((groupMessages alarms).map Prod.fst).toFinset
      = (alarms.map Alarm.device_id).toFinset := by
    ext x
    simp only [List.mem_toFinset]
    exact mem_keys_groupMessages alarms x
  calc (groupMessages alarms).length
      = ((groupMessages alarms).map Prod.fst).length := by simp
    _ = ((groupMessages alarms).map Prod.fst).toFinset.card :=
        (List.toFinset_card_of_nodup (nodup_keys_groupMessages alarms)).symm
    _ = (alarms.map Alarm.device_id).toFinset.card := by rw [hkeys]

theorem filter_key_eq_singleton {β : Type} [DecidableEq β]
    (m : List (String × β)) (dev : String) (msgs : β)
    (hnodup : (m.map Prod.fst).Nodup) (hmem : (dev, msgs) ∈ m) :
    m.filter (fun kv => kv.1 == dev) = [(dev, msgs)] := by
  induction m with
  | nil => simp at hmem
  | cons kv rest ih =>
    obtain ⟨k, ms⟩ := kv
    simp only [List.map_cons, List.nodup_cons] at hnodup
    rcases List.mem_cons.mp hmem with heq | hrest
    · injection heq with h1 h2
      subst h1
      subst h2
      have hnil : rest.filter (fun kv => kv.1 == dev) = [] := by
        rw [List.filter_eq_nil_iff]
        intro kv hkv
        simp only [beq_iff_eq]
        intro hfst
        exact hnodup.1 (hfst ▸ List.mem_map_of_mem Prod.fst hkv)
      simp [List.filter_cons, hnil]
    · have hdev : dev ∈ rest.map Prod.fst := by
        have := List.mem_map_of_mem Prod.fst hrest
        simpa using this
      have hk : ((k, ms).1 == dev) = false := by
        simp only [beq_eq_false_iff_ne, ne_eq]
        intro h
        exact hnodup.1 (h ▸ hdev)
      simp only [List.filter_cons, hk]
      simp only [Bool.false_eq_true, if_false]
      exact ih hnodup.2 hrest

theorem perm_insertBy {α : Type} (r : α → α → Bool) (c : α) (l : List α) :
    (insertBy r c l).Perm (c :: l) := by
  induction l with
  | nil => exact List.Perm.refl _
  | cons x xs ih =>
    simp only [insertBy]
    by_cases h : r x c = true
    · rw [if_pos h]
      exact (ih.cons x).trans (List.Perm.swap c x xs)
    · rw [if_neg h]

theorem perm_sortBy {α : Type} (r : α → α → Bool) (l : List α) :
    (sortBy r l).Perm l := by
  induction l with
  | nil => exact List.Perm.refl _
  | cons x xs ih =>
    exact (perm_insertBy r x (sortBy r xs)).trans (ih.cons x)

theorem mem_sortBy {α : Type} (r : α → α → Bool) (l : List α) (x : α) :
    x ∈ sortBy r l ↔ x ∈ l :=
  (perm_sortBy r l).mem_iff

theorem length_sortBy {α : Type} (r : α → α → Bool) (l : List α) :
    (sortBy r l).length = l.length :=
  (perm_sortBy r l).length_eq

theorem pairwise_insertBy_prob (c : Candidate) (l : List Candidate)
    (h : l.Pairwise fun a b => b.prob ≤ a.prob) :
    (insertBy probBefore c l).Pairwise fun a b => b.prob ≤ a.prob := by
  induction l with
  | nil => simp [insertBy]
  | cons x xs ih =>
    rw [List.pairwise_cons] at h
    simp only [insertBy]
    by_cases hr : probBefore x c = true
    · rw [if_pos hr]
      have hcx : c.prob < x.prob := by
        simpa [probBefore] using hr
      rw [List.pairwise_cons]
      refine ⟨?_, ih h.2⟩
      intro y hy
      rcases List.mem_cons.mp ((perm_insertBy probBefore c xs).mem_iff.mp hy)
        with hyc | hyxs
      · rw [hyc]
        exact le_of_lt hcx
      · exact h.1 y hyxs
    · rw [if_neg hr]
      have hxc : x.prob ≤ c.prob := by
        have : ¬ c.prob < x.prob := by
          simpa [probBefore] using hr
        exact le_of_not_lt this
      rw [List.pairwise_cons]
      refine ⟨?_, List.pairwise_cons.mpr h⟩
      intro y hy
      rcases List.mem_cons.mp hy with hyx | hyxs
      · rw [hyx]
        exact hxc
      · exact le_trans (h.1 y hyxs) hxc

theorem pairwise_sortBy_prob (l : List Candidate) :
    (sortBy probBefore l).Pairwise fun a b => b.prob ≤ a.prob := by
  induction l with
  | nil => simp [sortBy]
  | cons x xs ih => exact pairwise_insertBy_prob x (sortBy probBefore xs) ih

theorem two_mem_le_countP {α : Type} (l : List α) (p : α → Bool) (a b : α)
    (ha : a ∈ l) (hb : b ∈ l) (hab : a ≠ b)
    (hpa : p a = true) (hpb : p b = true) : 2 ≤ l.countP p := by
  induction l with
  | nil => simp at ha
  | cons x xs ih =>
    rcases List.mem_cons.mp ha with rfl | hax
    · have hbxs : b ∈ xs := by
        rcases List.mem_cons.mp hb with rfl | hbtl
        · exact absurd rfl hab
        · exact hbtl
      have h1 : 0 < xs.countP p := List.countP_pos_iff.mpr ⟨b, hbxs, hpb⟩
      rw [List.countP_cons, hpa]
      simp only [if_true]
      omega
    · rcases List.mem_cons.mp hb with rfl | hbx
      · have h1 : 0 < xs.countP p := List.countP_pos_iff.mpr ⟨a, hax, hpa⟩
        rw [List.countP_cons, hpb]
        simp only [if_true]
        omega
      · have h2 := ih hax hbx
        rw [List.countP_cons]
        omega

theorem mkCandidate_id (e : LogicalRCA) (alarmed : List String)
    (entry : String × List String) : (mkCandidate e alarmed entry).id = entry.1 := by
  obtain ⟨dev, msgs⟩ := entry
  simp only [mkCandidate]
  split <;> rfl

theorem foldl_sigStep_spec (count : Nat) (l : List SpecModel.Signature)
    (b : SpecModel.Signature) :
    ∃ s, l.foldl (SpecModel.sigStep count) (some b) = some s ∧
      (s ∈ l ∨ s = b) ∧
      SpecModel.effScore b count ≤ SpecModel.effScore s count ∧
      ∀ s' ∈ l, SpecModel.effScore s' count ≤ SpecModel.effScore s count := by
  induction l generalizing b with
  | nil => exact ⟨b, rfl, Or.inr rfl, le_refl _, by simp⟩
  | cons x xs ih =>
    simp only [List.foldl_cons]
    by_cases hx : SpecModel.effScore b count < SpecModel.effScore x count
    · have hstep : SpecModel.sigStep count (some b) x = some x := by
        simp [SpecModel.sigStep, hx]
      rw [hstep]
      obtain ⟨s, hs, hmem, hge, hall⟩ := ih x
      refine ⟨s, hs, ?_, le_trans (le_of_lt hx) hge, ?_⟩
      · rcases hmem with hmem | hmem
        · exact Or.inl (List.mem_cons_of_mem x hmem)
        · exact Or.inl (hmem ▸ List.mem_cons_self x xs)
      · intro t ht
        rcases List.mem_cons.mp ht with rfl | ht
        · exact hge
        · exact hall t ht
    · have hstep : SpecModel.sigStep count (some b) x = some b := by
        simp [SpecModel.sigStep, hx]
      rw [hstep]
      obtain ⟨s, hs, hmem, hge, hall⟩ := ih b
      refine ⟨s, hs, ?_, hge, ?_⟩
      · rcases hmem with hmem | hmem
        · exact Or.inl (List.mem_cons_of_mem x hmem)
        · exact Or.inr hmem
      · intro t ht
        rcases List.mem_cons.mp ht with rfl | ht
        · exact le_trans (le_of_not_lt hx) hge
        · exact hall t ht

theorem bestSignature_spec (count : Nat) (x : SpecModel.Signature)
    (xs : List SpecModel.Signature) :
    ∃ s, SpecModel.bestSignature (x :: xs) count = some s ∧ s ∈ x :: xs ∧
      ∀ s' ∈ x :: xs,
        SpecModel.effScore s' count ≤ SpecModel.effScore s count := by
  rw [SpecModel.bestSignature, List.foldl_cons]
  obtain ⟨s, hs, hmem, hge, hall⟩ := foldl_sigStep_spec count xs x
  refine ⟨s, hs, ?_, ?_⟩
  · rcases hmem with hmem | hmem
    · exact List.mem_cons_of_mem x hmem
    · exact hmem ▸ List.mem_cons_self x xs
  · intro t ht
    rcases List.mem_cons.mp ht with rfl | ht
    · exact hge
    · exact hall t ht

theorem classifyDevice_deviceId (k : String) (ms : List String) :
    (SpecModel.classifyDevice k ms).deviceId = k := by
  simp only [SpecModel.classifyDevice]
  split <;> rfl

theorem classifyDevice_probability (dev : String) (msgs : List String)
    (sig : SpecModel.Signature) (hsig : sig ∈ SpecModel.signatures)
    (hmatch : sig.pred (SpecModel.lowerStr (" ".intercalate msgs)) = true) :
    ∃ s ∈ SpecModel.signatures,
      s.pred (SpecModel.lowerStr (" ".intercalate msgs)) = true ∧
      (SpecModel.classifyDevice dev msgs).probability
        = SpecModel.effScore s msgs.length ∧
      SpecModel.effScore sig msgs.length
        ≤ SpecModel.effScore s msgs.length := by
  have hmemf : sig ∈ SpecModel.signatures.filter
      (fun s => s.pred (SpecModel.lowerStr (" ".intercalate msgs))) :=
    List.mem_filter.mpr ⟨hsig, hmatch⟩
  obtain ⟨y, ys, hyys⟩ :=
    List.exists_cons_of_ne_nil (List.ne_nil_of_mem hmemf)
  obtain ⟨s, hbest, hsmem, hall⟩ := bestSignature_spec msgs.length y ys
  have hb2 : SpecModel.bestSignature
      (SpecModel.signatures.filter
        (fun s => s.pred (SpecModel.lowerStr (" ".intercalate msgs)))) msgs.length
      = some s := by
    rw [hyys]
    exact hbest
  have hsmem2 : s ∈ SpecModel.signatures.filter
      (fun s => s.pred (SpecModel.lowerStr (" ".intercalate msgs))) := by
    rw [hyys]
    exact hsmem
  have hclass : (SpecModel.classifyDevice dev msgs).probability
      = SpecModel.effScore s msgs.length := by
    simp only [SpecModel.classifyDevice, hb2]
  refine ⟨s, (List.mem_filter.mp hsmem2).1, (List.mem_filter.mp hsmem2).2,
    hclass, ?_⟩
  have := hall sig (hyys ▸ hmemf)
  exact this

theorem deviceLostB_ne_nil (alarms : List Alarm) (x : String)
    (h : SpecModel.deviceLostB (groupMessages alarms) x = true) :
    alarms ≠ [] := by
  intro hnil
  rw [hnil] at h
  simp [SpecModel.deviceLostB, groupMessages] at h

theorem parentOf_mem (topo : List NetworkNode) (d p : String)
    (h : SpecModel.parentOf topo d = some p) :
    d ∈ topo.map NetworkNode.id := by
  rw [SpecModel.parentOf] at h
  cases hud : SpecModel.lookupNode topo d with
  | none =>
    rw [hud] at h
    simp at h
  | some nd =>
    rw [SpecModel.lookupNode] at hud
    have hmem := List.mem_of_find?_eq_some hud
    have hid : nd.id = d := by
      have h2 := List.find?_some hud
      simpa using h2
    exact hid ▸ List.mem_map_of_mem NetworkNode.id hmem

theorem isDescendantB_mem (topo : List NetworkNode) (d anc : String)
    (h : SpecModel.isDescendantB topo d anc = true) :
    d ∈ topo.map NetworkNode.id := by
  rw [SpecModel.isDescendantB, SpecModel.hasAncestorB] at h
  cases hpd : SpecModel.parentOf topo d with
  | none =>
    rw [hpd] at h
    simp at h
  | some p => exact parentOf_mem topo d p hpd

theorem mem_specAnalyze_of_mem_propagate (topo : List NetworkNode)
    (alarms : List Alarm) (c : SpecModel.SpecCandidate)
    (halarms : alarms ≠ [])
    (hc : c ∈ SpecModel.propagate topo (SpecModel.candsAfterCascade topo alarms)) :
    c ∈ SpecModel.specAnalyze topo alarms := by
  have hempty : alarms.isEmpty = false := by
    simpa [List.isEmpty_iff] using halarms
  have hmem : c ∈ sortBy SpecModel.specBefore
      (SpecModel.propagate topo (SpecModel.candsAfterCascade topo alarms)) :=
    (mem_sortBy _ _ _).mpr hc
  have hne : (sortBy SpecModel.specBefore
      (SpecModel.propagate topo (SpecModel.candsAfterCascade topo alarms))).isEmpty
        = false := by
    rw [List.isEmpty_eq_false_iff_exists_mem]
    exact ⟨c, hmem⟩
  simp only [SpecModel.specAnalyze, hempty, Bool.false_eq_true, if_false, hne]
  exact hmem

theorem filter_map_comm {α β : Type} (f : α → β) (p : β → Bool) (l : List α) :
    (l.map f).filter p = (l.filter fun a => p (f a)).map f := by
  induction l with
  | nil => rfl
  | cons x xs ih =>
    simp only [List.map_cons, List.filter_cons]
    by_cases h : p (f x) = true
    · rw [h]
      simp [ih]
    · rw [Bool.not_eq_true] at h
      rw [h]
      simp [ih]

/-! ### Claim C4 -/

/-- C4 counterexample: on the empty alarm list, the single synthetic
candidate returned by `analyze` carries id `"SYSTEM"`, not `"System"`
as the claim states — shown on a concrete valid engine. -/
theorem C4_counterexample :
    (analyze { topology := [] } []).map Candidate.id ≠ ["System"] := by
  decide

/-- C4 (amended): for every engine, analysis of an empty alarm list
returns exactly one synthetic candidate, with id `"SYSTEM"` (upper
case), type `"Normal"` and probability 0.0. -/
theorem C4_empty_input_synthetic_candidate (e : LogicalRCA) :
    analyze e [] =
      [⟨"SYSTEM", "No alerts detected", 0, "Normal", 0,
        "No active alerts detected."⟩] := rfl

/-! ### Claim C3 -/

/-- A concrete topology whose parent relation has a cycle
(`A → B → A`). -/
def cycTopology : Topology :=
  [("A", { id := "A", parent_id := some "B" }),
    ("B", { id := "B", parent_id := some "A" })]

/-- C3 counterexample: on a cyclic topology, validation returns `False`
(it does not raise a `ValidationError`), construction
(`load_topology_from_json`) still returns the broken graph, and
`analyze` happily proceeds over it — so construction does not fail as
the claim states. -/
theorem C3_counterexample :
    validateTopology cycTopology = false ∧
      loadTopology cycTopology = cycTopology ∧
      analyze { topology := cycTopology } [⟨"A", "Connection Lost", "CRITICAL"⟩]
        ≠ [] := by
  refine ⟨by decide, rfl, by decide⟩

/-- C3 (amended): whenever validation finds a dangling parent
reference, or its cycle detector finds a circular reference, it records
an issue naming the offending node and returns `False`; but
construction does not fail: `load_topology_from_json` discards the
validation result and returns the topology, over which analysis then
proceeds. -/
theorem C3_validation_warns_but_construction_proceeds :
    (∀ (topo : Topology) (key p : String) (node : NetworkNode),
      (key, node) ∈ topo → node.parent_id = some p → p ≠ "" →
      topo.lookup p = none →
      ("Node " ++ key ++ " has invalid parent: " ++ p) ∈ topologyIssues topo ∧
        validateTopology topo = false ∧ loadTopology topo = topo) ∧
    (∀ (topo : Topology) (key : String) (node : NetworkNode),
      (key, node) ∈ topo → hasCircularReference node topo = true →
      ("Circular reference detected: " ++ key) ∈ topologyIssues topo ∧
        validateTopology topo = false ∧ loadTopology topo = topo) := by
  have hload : ∀ topo : Topology, loadTopology topo = topo := by
    intro topo
    rw [loadTopology]
    split <;> rfl
  have hvalid : ∀ (topo : Topology) (msg : String),
      msg ∈ topologyIssues topo → validateTopology topo = false := by
    intro topo msg hmsg
    rw [validateTopology]
    rw [List.isEmpty_eq_false_iff_exists_mem]
    exact ⟨msg, hmsg⟩
  constructor
  · intro topo key p node hmem hparent hp hlook
    have hitem : ("Node " ++ key ++ " has invalid parent: " ++ p)
        ∈ itemIssues topo (key, node) := by
      simp only [itemIssues, hparent]
      have hcond : p ≠ "" ∧ (topo.lookup p).isNone := ⟨hp, by rw [hlook]; rfl⟩
      rw [if_pos hcond]
      simp
    have hIn : ("Node " ++ key ++ " has invalid parent: " ++ p)
        ∈ topologyIssues topo :=
      List.mem_flatMap.mpr ⟨(key, node), hmem, hitem⟩
    exact ⟨hIn, hvalid _ _ hIn, hload topo⟩
  · intro topo key node hmem hcirc
    have hitem : ("Circular reference detected: " ++ key)
        ∈ itemIssues topo (key, node) := by
      simp only [itemIssues, hcirc]
      simp
    have hIn : ("Circular reference detected: " ++ key)
        ∈ topologyIssues topo :=
      List.mem_flatMap.mpr ⟨(key, node), hmem, hitem⟩
    exact ⟨hIn, hvalid _ _ hIn, hload topo⟩

/-- C3 witness: the amended theorem applied to a concrete dangling
parent reference and to the concrete cyclic topology. -/
theorem C3_witness :
    (("Node X has invalid parent: GONE")
        ∈ topologyIssues [("X", { id := "X", parent_id := some "GONE" })] ∧
      validateTopology [("X", { id := "X", parent_id := some "GONE" })] = false ∧
      loadTopology [("X", { id := "X", parent_id := some "GONE" })]
        = [("X", { id := "X", parent_id := some "GONE" })]) ∧
    (("Circular reference detected: A") ∈ topologyIssues cycTopology ∧
      validateTopology cycTopology = false ∧
      loadTopology cycTopology = cycTopology) :=
  ⟨C3_validation_warns_but_construction_proceeds.1
      [("X", { id := "X", parent_id := some "GONE" })] "X" "GONE"
      { id := "X", parent_id := some "GONE" } (by decide) rfl (by decide)
      (by decide),
    C3_validation_warns_but_construction_proceeds.2 cycTopology "A"
      { id := "A", parent_id := some "B" } (by decide) (by decide)⟩

/-! ### Claim C6 -/

/-- Lexicographic (codepoint) order on character lists, used to state
the claim's "deviceId ascending". -/
def charListLe : List Char → List Char → Bool
  | [], _ => true
  | _ :: _, [] => false
  | x :: xs, y :: ys =>
    decide (x.val < y.val) || (x.val == y.val && charListLe xs ys)

/-- Lexicographic order on strings ("deviceId ascending"). -/
def strLeB (a b : String) : Bool :=
  charListLe a.toList b.toList

/-- C6 counterexample: the output of `analyze` is not ordered by the
claimed total order (probability descending, then tier ascending, then
deviceId ascending): with two devices of equal probability and tier the
engine keeps first-alarm order `["B", "A"]` instead of sorting by
deviceId. -/
theorem C6_counterexample :
    ¬ (analyze { topology := [] }
        [⟨"B", "Fan Fail", "WARNING"⟩, ⟨"A", "Fan Fail", "WARNING"⟩]).Pairwise
      (fun a b => (decide (a.prob > b.prob)
        || (a.prob == b.prob && (decide (a.tier < b.tier)
          || (a.tier == b.tier && strLeB a.id b.id)))) = true) := by
  decide

/-- C6 (amended): the candidate list returned by `analyze` is sorted by
probability descending only (Python's stable sort keeps ties in device
first-alarm order); the analysis is a pure function of the topology,
the alarm list and the engine's collaborators, so identical inputs
yield the identical output ordering. -/
theorem C6_sorted_by_probability_descending (e : LogicalRCA)
    (alarms : List Alarm) :
    (analyze e alarms).Pairwise (fun a b => b.prob ≤ a.prob) := by
  rw [analyze]
  split
  · simp
  · exact pairwise_sortBy_prob _

/-! ### Claim C7 -/

/-- C7: redundancy-aware single-PSU classification of
`analyze_redundancy_depth`: (1) a single PSU failure (evidence not
indicating dual loss / device down / thermal shutdown) on a device with
`psu_count ≥ 2` is classified `Hardware/Redundancy` at the engine's
moderate probability 0.7; (2) an absent
`metadata.hw_inventory.psu_count` defaults to 1; (3) dual/total power
loss is classified `Hardware/Physical` at probability 0.9 — the highest
probability the engine assigns to any candidate. -/
theorem C7_psu_redundancy_classification :
    (∀ (e : LogicalRCA) (dev : String) (alerts : List String),
      alerts ≠ [] →
      strContainsB (" ".intercalate (alerts.map e.sanitize)) "Dual Loss" = false →
      strContainsB (" ".intercalate (alerts.map e.sanitize)) "Device Down" = false →
      strContainsB (" ".intercalate (alerts.map e.sanitize)) "Thermal Shutdown"
        = false →
      psuSingleFailB (" ".intercalate (alerts.map e.sanitize)) = true →
      getPsuCount e dev 1 ≥ 2 →
      (analyzeRedundancyDepth e dev alerts).impact_type = "Hardware/Redundancy" ∧
        (probTier (analyzeRedundancyDepth e dev alerts)).1 = 70) ∧
    (∀ (e : LogicalRCA) (dev : String) (n : NetworkNode),
      getDeviceNode e dev = some n → n.psu_count = none →
      getPsuCount e dev 1 = 1) ∧
    (∀ (e : LogicalRCA) (dev : String) (alerts : List String),
      alerts ≠ [] →
      strContainsB (" ".intercalate (alerts.map e.sanitize)) "Dual Loss" = true →
      (analyzeRedundancyDepth e dev alerts).impact_type = "Hardware/Physical" ∧
        (probTier (analyzeRedundancyDepth e dev alerts)).1 = 90) := by
  refine ⟨?_, ?_, ?_⟩
  · intro e dev alerts hne hdl hdd hts hpsu hcount
    have hempty : alerts.isEmpty = false := by
      simpa [List.isEmpty_iff] using hne
    rw [analyzeRedundancyDepth]
    simp only [hempty, Bool.false_eq_true, if_false]
    rw [if_neg (by simp [hdl, hdd, hts])]
    rw [if_pos (by simpa using hpsu)]
    rw [if_pos hcount]
    refine ⟨rfl, ?_⟩
    simp [probTier]
  · intro e dev n hn hpsu
    simp [getPsuCount, hn, hpsu]
  · intro e dev alerts hne hdl
    have hempty : alerts.isEmpty = false := by
      simpa [List.isEmpty_iff] using hne
    rw [analyzeRedundancyDepth]
    simp only [hempty, Bool.false_eq_true, if_false]
    rw [if_pos (by simp [hdl])]
    refine ⟨rfl, ?_⟩
    simp [probTier]

/-- C7 witness: the three parts of the theorem evaluated on concrete
engines: a device with `psu_count = 2` and a single PSU-failure alarm,
a device without the metadata key, and a dual-loss alarm. -/
theorem C7_witness :
    ((analyzeRedundancyDepth
        { topology := [("R1", { id := "R1", psu_count := some 2 })] } "R1"
        ["Power Supply 1 Failed"]).impact_type = "Hardware/Redundancy" ∧
      (probTier (analyzeRedundancyDepth
        { topology := [("R1", { id := "R1", psu_count := some 2 })] } "R1"
        ["Power Supply 1 Failed"])).1 = 70) ∧
    getPsuCount { topology := [("R2", { id := "R2" })] } "R2" 1 = 1 ∧
    ((analyzeRedundancyDepth { topology := [] } "R3"
        ["Power Supply: Dual Loss (Device Down)"]).impact_type
        = "Hardware/Physical" ∧
      (probTier (analyzeRedundancyDepth { topology := [] } "R3"
        ["Power Supply: Dual Loss (Device Down)"])).1 = 90) :=
  ⟨C7_psu_redundancy_classification.1 _ "R1" ["Power Supply 1 Failed"]
      (by decide) (by decide) (by decide) (by decide) (by decide) (by decide),
    C7_psu_redundancy_classification.2.1 _ "R2" { id := "R2" } rfl rfl,
    C7_psu_redundancy_classification.2.2 _ "R3"
      ["Power Supply: Dual Loss (Device Down)"] (by decide) (by decide)⟩

/-! ### Claim C8 -/

/-- C8 counterexample: when the external judgment call fails (here: a
timeout exception), the fallback impact type is `"AI_ERROR"`, not the
`"UNKNOWN"` the claim promises for all three failure modes. -/
theorem C8_counterexample :
    (analyzeRedundancyDepth
      { topology := [], oracle := some fun _ _ => .error "Timeout" }
      "FW1" ["Heartbeat Loss"]).impact_type ≠ "UNKNOWN" := by
  decide

/-- C8 (amended): for a device whose evidence no local rule resolves,
the analysis never raises and always produces a verdict: with missing
credentials the fixed fallback is `WARNING`/`UNKNOWN` with reason
"API key not configured. Manual analysis required."; when the external
call itself fails (timeout, malformed response) the fallback is
`WARNING` with impact type `AI_ERROR` and reason
"AI Analysis Failed: ...". -/
theorem C8_collaborator_failure_fallback :
    (∀ (e : LogicalRCA) (dev : String) (alerts : List String),
      alerts ≠ [] → e.oracle = none →
      strContainsB (" ".intercalate (alerts.map e.sanitize)) "Dual Loss" = false →
      strContainsB (" ".intercalate (alerts.map e.sanitize)) "Device Down" = false →
      strContainsB (" ".intercalate (alerts.map e.sanitize)) "Thermal Shutdown"
        = false →
      psuSingleFailB (" ".intercalate (alerts.map e.sanitize)) = false →
      analyzeRedundancyDepth e dev alerts =
        ⟨.WARNING, "API key not configured. Manual analysis required.",
          "UNKNOWN"⟩) ∧
    (∀ (e : LogicalRCA) (dev : String) (alerts : List String)
      (f : String → List String → Except String LLMReply) (emsg : String),
      alerts ≠ [] → e.oracle = some f →
      f dev (alerts.map e.sanitize) = .error emsg →
      strContainsB (" ".intercalate (alerts.map e.sanitize)) "Dual Loss" = false →
      strContainsB (" ".intercalate (alerts.map e.sanitize)) "Device Down" = false →
      strContainsB (" ".intercalate (alerts.map e.sanitize)) "Thermal Shutdown"
        = false →
      psuSingleFailB (" ".intercalate (alerts.map e.sanitize)) = false →
      analyzeRedundancyDepth e dev alerts =
        ⟨.WARNING, "AI Analysis Failed: " ++ emsg, "AI_ERROR"⟩) := by
  constructor
  · intro e dev alerts hne horacle hdl hdd hts hpsu
    have hempty : alerts.isEmpty = false := by
      simpa [List.isEmpty_iff] using hne
    rw [analyzeRedundancyDepth]
    simp only [hempty, Bool.false_eq_true, if_false]
    rw [if_neg (by simp [hdl, hdd, hts])]
    rw [if_neg (by simp [hpsu])]
    rw [horacle]
  · intro e dev alerts f emsg hne horacle hf hdl hdd hts hpsu
    have hempty : alerts.isEmpty = false := by
      simpa [List.isEmpty_iff] using hne
    rw [analyzeRedundancyDepth]
    simp only [hempty, Bool.false_eq_true, if_false]
    rw [if_neg (by simp [hdl, hdd, hts])]
    rw [if_neg (by simp [hpsu])]
    simp only [horacle]
    rw [hf]

/-- C8 witness: the two fallbacks evaluated concretely — an ambiguous
alert with no API key, and the same alert with an external call that
raises. -/
theorem C8_witness :
    analyzeRedundancyDepth { topology := [] } "FW1" ["Heartbeat Loss"] =
      ⟨.WARNING, "API key not configured. Manual analysis required.",
        "UNKNOWN"⟩ ∧
    analyzeRedundancyDepth
        { topology := [], oracle := some fun _ _ => .error "DeadlineExceeded" }
        "FW1" ["Heartbeat Loss"] =
      ⟨.WARNING, "AI Analysis Failed: DeadlineExceeded", "AI_ERROR"⟩ :=
  ⟨C8_collaborator_failure_fallback.1 { topology := [] } "FW1"
      ["Heartbeat Loss"] (by decide) rfl (by decide) (by decide) (by decide)
      (by decide),
    C8_collaborator_failure_fallback.2
      { topology := [], oracle := some fun _ _ => .error "DeadlineExceeded" }
      "FW1" ["Heartbeat Loss"] _ "DeadlineExceeded" (by decide) rfl rfl
      (by decide) (by decide) (by decide) (by decide)⟩

/-! ### Claim C9 -/

/-- C9: for every non-empty alarm batch, `analyze` returns exactly one
candidate per distinct alarmed device and none for any other device:
the output ids are duplicate-free, an id occurs in the output iff some
alarm carries it, and the output length is the number of distinct
alarmed device ids. -/
theorem C9_one_candidate_per_alarmed_device (e : LogicalRCA)
    (alarms : List Alarm) (h : alarms ≠ []) :
    ((analyze e alarms).map Candidate.id).Nodup ∧
      (∀ x : String, x ∈ (analyze e alarms).map Candidate.id ↔
        x ∈ alarms.map Alarm.device_id) ∧
      (analyze e alarms).length = (alarms.map Alarm.device_id).toFinset.card := by
  have hempty : alarms.isEmpty = false := by
    simpa [List.isEmpty_iff] using h
  have hana : analyze e alarms =
      sortBy probBefore ((groupMessages alarms).map
        (mkCandidate e ((groupMessages alarms).map Prod.fst))) := by
    simp only [analyze, hempty, Bool.false_eq_true, if_false]
  have hmapid : ((groupMessages alarms).map
      (mkCandidate e ((groupMessages alarms).map Prod.fst))).map Candidate.id
        = (groupMessages alarms).map Prod.fst := by
    rw [List.map_map]
    exact List.map_congr_left fun kv _ => mkCandidate_id e _ kv
  have hperm : ((analyze e alarms).map Candidate.id).Perm
      ((groupMessages alarms).map Prod.fst) := by
    have h1 := (perm_sortBy probBefore ((groupMessages alarms).map
      (mkCandidate e ((groupMessages alarms).map Prod.fst)))).map Candidate.id
    rw [hmapid] at h1
    rw [hana]
    exact h1
  refine ⟨?_, ?_, ?_⟩
  · exact hperm.nodup_iff.mpr (nodup_keys_groupMessages alarms)
  · intro x
    exact hperm.mem_iff.trans (mem_keys_groupMessages alarms x)
  · have hlen : (analyze e alarms).length = (groupMessages alarms).length := by
      have h1 := hperm.length_eq
      simpa using h1
    rw [hlen, length_groupMessages]

/-- C9 witness: the theorem applied to a concrete two-alarm batch on
one device plus one alarm on another. -/
theorem C9_witness :
    ((analyze { topology := [] }
        [⟨"SW1", "Fan Fail", "WARNING"⟩, ⟨"SW1", "Memory High", "WARNING"⟩,
          ⟨"AP1", "Connection Lost", "CRITICAL"⟩]).map Candidate.id).Nodup ∧
      (∀ x : String, x ∈ (analyze { topology := [] }
          [⟨"SW1", "Fan Fail", "WARNING"⟩, ⟨"SW1", "Memory High", "WARNING"⟩,
            ⟨"AP1", "Connection Lost", "CRITICAL"⟩]).map Candidate.id ↔
        x ∈ ([⟨"SW1", "Fan Fail", "WARNING"⟩, ⟨"SW1", "Memory High", "WARNING"⟩,
          ⟨"AP1", "Connection Lost", "CRITICAL"⟩] : List Alarm).map
            Alarm.device_id) ∧
      (analyze { topology := [] }
        [⟨"SW1", "Fan Fail", "WARNING"⟩, ⟨"SW1", "Memory High", "WARNING"⟩,
          ⟨"AP1", "Connection Lost", "CRITICAL"⟩]).length =
        (([⟨"SW1", "Fan Fail", "WARNING"⟩, ⟨"SW1", "Memory High", "WARNING"⟩,
          ⟨"AP1", "Connection Lost", "CRITICAL"⟩] : List Alarm).map
            Alarm.device_id).toFinset.card :=
  C9_one_candidate_per_alarmed_device { topology := [] } _ (by decide)

/-! ### Claim C10 -/

/-- C10: a device whose messages include the substring "Unreachable"
and whose direct parent is also alarmed in the same batch receives
exactly the fixed cascade-suppression candidate — probability 0.2
(20 hundredths), tier 3, type `Network/Unreachable` — regardless of the
LLM collaborator, the sanitizer and the redundancy metadata, which are
never consulted for it. -/
theorem C10_unreachable_child_fixed_candidate (e : LogicalRCA)
    (alarms : List Alarm) (dev p : String) (msgs : List String)
    (hmem : (dev, msgs) ∈ groupMessages alarms)
    (hunr : (msgs.any fun m => strContainsB m "Unreachable") = true)
    (hpar : getParentId e dev = some p)
    (hp : p ≠ "")
    (halarm : p ∈ alarms.map Alarm.device_id) :
    (analyze e alarms).filter (fun c => c.id == dev) =
      [⟨dev, " / ".intercalate msgs, 20, "Network/Unreachable", 3,
        "Downstream unreachable due to upstream alarm (parent=" ++ p ++ ")."⟩] := by
  have halne : alarms ≠ [] := by
    intro hnil
    rw [hnil] at hmem
    simp [groupMessages] at hmem
  have hempty : alarms.isEmpty = false := by
    simpa [List.isEmpty_iff] using halne
  have hana : analyze e alarms =
      sortBy probBefore ((groupMessages alarms).map
        (mkCandidate e ((groupMessages alarms).map Prod.fst))) := by
    simp only [analyze, hempty, Bool.false_eq_true, if_false]
  set alarmed := (groupMessages alarms).map Prod.fst with halarmed
  have hfilter_results :
      (((groupMessages alarms).map (mkCandidate e alarmed)).filter
        (fun c => c.id == dev)) = [mkCandidate e alarmed (dev, msgs)] := by
    rw [filter_map_comm]
    have hpred : ((groupMessages alarms).filter
        fun kv => (mkCandidate e alarmed kv).id == dev)
          = (groupMessages alarms).filter fun kv => kv.1 == dev := by
      apply List.filter_congr
      intro kv _
      rw [mkCandidate_id]
    rw [hpred, filter_key_eq_singleton _ dev msgs (nodup_keys_groupMessages alarms)
      hmem]
    rfl
  have hvalue : mkCandidate e alarmed (dev, msgs) =
      ⟨dev, " / ".intercalate msgs, 20, "Network/Unreachable", 3,
        "Downstream unreachable due to upstream alarm (parent=" ++ p ++ ")."⟩ := by
    have hparal : parentIsAlarmed e alarmed dev = true := by
      rw [parentIsAlarmed, hpar]
      have hmemp : p ∈ alarmed := by
        rw [halarmed, mem_keys_groupMessages]
        exact halarm
      simp [hp, hmemp]
    rw [mkCandidate]
    simp only [hunr, hparal, Bool.and_self, if_pos rfl, hpar]
    rfl
  have hperm : ((analyze e alarms).filter (fun c => c.id == dev)).Perm
      [mkCandidate e alarmed (dev, msgs)] := by
    rw [hana, ← hfilter_results]
    exact (perm_sortBy probBefore _).filter _
  rw [List.perm_singleton.mp hperm, hvalue]

/-- C10 witness: a concrete child reporting "Gateway Unreachable" under
an alarmed parent, evaluated with an engine whose oracle would fail if
consulted. -/
theorem C10_witness :
    (analyze
        { topology := [("P", { id := "P" }),
            ("D", { id := "D", parent_id := some "P" })],
          oracle := some fun _ _ => .error "unavailable" }
        [⟨"P", "Power Supply: Dual Loss (Device Down)", "CRITICAL"⟩,
          ⟨"D", "Gateway Unreachable", "CRITICAL"⟩]).filter
      (fun c => c.id == "D") =
      [⟨"D", "Gateway Unreachable", 20, "Network/Unreachable", 3,
        "Downstream unreachable due to upstream alarm (parent=P)."⟩] := by
  have h := C10_unreachable_child_fixed_candidate
    { topology := [("P", { id := "P" }),
        ("D", { id := "D", parent_id := some "P" })],
      oracle := some fun _ _ => .error "unavailable" }
    [⟨"P", "Power Supply: Dual Loss (Device Down)", "CRITICAL"⟩,
      ⟨"D", "Gateway Unreachable", "CRITICAL"⟩]
    "D" "P" ["Gateway Unreachable"]
    (by decide) (by decide) (by decide) (by decide) (by decide)
  simpa using h

/-! ### Claim C5 -/

/-- C5 (spec-modelled classifier): the effective score of a signature
is `min(baseScore + 0.02 × alarmCount, 1.0)` (in hundredths:
`min (base + 2·count) 100`); in particular a device whose evidence is 3
power-supply-failure alarms (and no fan failure) is scored 1.0, and
with 1 such alarm 0.97. -/
theorem C5_effective_score_formula :
    (∀ s ∈ SpecModel.signatures, ∀ count : Nat,
      SpecModel.effScore s count = min (s.base + 2 * count) 100) ∧
    (∀ (dev : String) (msgs : List String), msgs.length = 3 →
      strContainsB (SpecModel.lowerStr (" ".intercalate msgs)) "power supply" = true →
      strContainsB (SpecModel.lowerStr (" ".intercalate msgs)) "fan" = false →
      (SpecModel.classifyDevice dev msgs).probability = 100) ∧
    (∀ (dev : String) (msgs : List String), msgs.length = 1 →
      strContainsB (SpecModel.lowerStr (" ".intercalate msgs)) "power supply" = true →
      strContainsB (SpecModel.lowerStr (" ".intercalate msgs)) "fan" = false →
      (SpecModel.classifyDevice dev msgs).probability = 97) := by
  have hsig2mem : SpecModel.sigPhysical ∈ SpecModel.signatures := by
    rw [SpecModel.signatures]
    exact List.mem_cons_of_mem _ (List.mem_cons_self _ _)
  refine ⟨fun s _ count => rfl, ?_, ?_⟩
  · intro dev msgs hlen hps hfan
    have hmatch2 : SpecModel.sigPhysical.pred
        (SpecModel.lowerStr (" ".intercalate msgs)) = true := by
      simp only [SpecModel.sigPhysical]
      rw [hps]
      rfl
    obtain ⟨s, hsS, hspred, hprob, hge⟩ :=
      classifyDevice_probability dev msgs SpecModel.sigPhysical hsig2mem hmatch2
    rw [hprob, hlen]
    rw [hlen] at hge
    have hup : SpecModel.effScore s 3 ≤ 100 := Nat.min_le_right _ _
    have hlow : (100 : Nat) ≤ SpecModel.effScore s 3 := by
      have h2 : SpecModel.effScore SpecModel.sigPhysical 3 = 100 := by decide
      rw [h2] at hge
      exact hge
    omega
  · intro dev msgs hlen hps hfan
    have hmatch2 : SpecModel.sigPhysical.pred
        (SpecModel.lowerStr (" ".intercalate msgs)) = true := by
      simp only [SpecModel.sigPhysical]
      rw [hps]
      rfl
    obtain ⟨s, hsS, hspred, hprob, hge⟩ :=
      classifyDevice_probability dev msgs SpecModel.sigPhysical hsig2mem hmatch2
    rw [hprob, hlen]
    rw [hlen] at hge
    have hlow : (97 : Nat) ≤ SpecModel.effScore s 1 := by
      have h2 : SpecModel.effScore SpecModel.sigPhysical 1 = 97 := by decide
      rw [h2] at hge
      exact hge
    have hup : SpecModel.effScore s 1 ≤ 97 := by
      rw [SpecModel.signatures] at hsS
      simp only [List.mem_cons, List.not_mem_nil, or_false] at hsS
      rcases hsS with rfl | rfl | rfl | rfl | rfl | rfl
      · exfalso
        simp [SpecModel.sigMultiFail, hfan] at hspred
      · decide
      · decide
      · decide
      · decide
      · decide
    omega

/-- C5 witness: concrete power-supply-failure batches of size 3 and 1,
plus one concrete signature score. -/
theorem C5_witness :
    SpecModel.effScore SpecModel.sigLink 2
        = min (SpecModel.sigLink.base + 2 * 2) 100 ∧
    (SpecModel.classifyDevice "R1"
      ["Power Supply 1 Failed", "Power Supply 2 Failed",
        "Power Supply 1 Failed"]).probability = 100 ∧
    (SpecModel.classifyDevice "R1" ["Power Supply 1 Failed"]).probability
      = 97 :=
  ⟨C5_effective_score_formula.1 SpecModel.sigLink
      (by rw [SpecModel.signatures]
          exact List.mem_cons_of_mem _ (List.mem_cons_of_mem _
            (List.mem_cons_self _ _))) 2,
    C5_effective_score_formula.2.1 "R1"
      ["Power Supply 1 Failed", "Power Supply 2 Failed",
        "Power Supply 1 Failed"] rfl (by decide) (by decide),
    C5_effective_score_formula.2.2 "R1" ["Power Supply 1 Failed"] rfl
      (by decide) (by decide)⟩

/-! ### Claim C1 -/

/-- C1 (spec-modelled CascadeAnalyzer): whenever at least two distinct
children of the same parent node report a loss-of-contact event while
the parent itself reports no alarm, the analysis emits a candidate for
the parent at probability 0.99 (99 hundredths), with the silent-failure
type `Network/Silent` and a non-empty verification log. -/
theorem C1_silent_failure_detection (topo : List NetworkNode)
    (alarms : List Alarm) (parent : String) (n1 n2 : NetworkNode)
    (hp : parent ∈ topo.map NetworkNode.id)
    (h1 : n1 ∈ topo) (h2 : n2 ∈ topo) (hne12 : n1.id ≠ n2.id)
    (hp1 : n1.parent_id = some parent) (hp2 : n2.parent_id = some parent)
    (hl1 : SpecModel.deviceLostB (groupMessages alarms) n1.id = true)
    (hl2 : SpecModel.deviceLostB (groupMessages alarms) n2.id = true)
    (hquiet : parent ∉ alarms.map Alarm.device_id) :
    ∃ c ∈ SpecModel.specAnalyze topo alarms,
      c.deviceId = parent ∧ 99 ≤ c.probability ∧
      c.type = "Network/Silent" ∧ c.verificationLog ≠ [] := by
  have halne : alarms ≠ [] := deviceLostB_ne_nil alarms n1.id hl1
  have hcount : 2 ≤ SpecModel.lossChildCount topo (groupMessages alarms) parent := by
    rw [SpecModel.lossChildCount]
    refine two_mem_le_countP topo _ n1 n2 h1 h2 ?_ ?_ ?_
    · intro heq
      exact hne12 (congrArg NetworkNode.id heq)
    · rw [hp1]
      simp [hl1]
    · rw [hp2]
      simp [hl2]
  have hsilent : parent ∈ (topo.map NetworkNode.id).filter
      (fun pid => decide
        (2 ≤ SpecModel.lossChildCount topo (groupMessages alarms) pid)) :=
    List.mem_filter.mpr ⟨hp, decide_eq_true hcount⟩
  have hnocand : (SpecModel.classifyAll (groupMessages alarms)).any
      (fun c => c.deviceId == parent) = false := by
    rw [List.any_eq_false]
    intro c hc
    obtain ⟨entry, hentry, rfl⟩ := List.mem_map.mp hc
    rw [classifyDevice_deviceId, beq_iff_eq]
    intro heq
    apply hquiet
    rw [← mem_keys_groupMessages]
    exact heq ▸ List.mem_map_of_mem Prod.fst hentry
  have hcascade :
      (⟨parent, "Network/Silent", "Silent failure inferred from downstream loss",
        99, 1, ["Inferred from downstream loss-of-contact events"],
        SpecModel.silentLog parent
          (SpecModel.lossChildCount topo (groupMessages alarms) parent)⟩ :
        SpecModel.SpecCandidate) ∈ SpecModel.candsAfterCascade topo alarms := by
    simp only [SpecModel.candsAfterCascade, SpecModel.cascadeAnalyze]
    refine List.mem_append.mpr (Or.inr ?_)
    refine List.mem_map.mpr ⟨parent, ?_, rfl⟩
    refine List.mem_filter.mpr ⟨hsilent, ?_⟩
    rw [hnocand]
    rfl
  have hprop :
      (⟨parent, "Network/Silent", "Silent failure inferred from downstream loss",
        99, 1, ["Inferred from downstream loss-of-contact events"],
        SpecModel.silentLog parent
          (SpecModel.lossChildCount topo (groupMessages alarms) parent)⟩ :
        SpecModel.SpecCandidate)
        ∈ SpecModel.propagate topo (SpecModel.candsAfterCascade topo alarms) := by
    simp only [SpecModel.propagate]
    refine List.mem_append.mpr (Or.inl ?_)
    refine List.mem_map.mpr ⟨_, hcascade, ?_⟩
    simp
  refine ⟨_, mem_specAnalyze_of_mem_propagate topo alarms _ halne hprop,
    rfl, le_refl _, rfl, ?_⟩
  simp [SpecModel.silentLog]

/-- C1 witness: the theorem applied to the spec's own example — a ROOT
node with two children A and B both reporting "Connection Lost" while
ROOT stays silent. -/
theorem C1_witness :
    ∃ c ∈ SpecModel.specAnalyze
      [{ id := "ROOT" }, { id := "A", parent_id := some "ROOT" },
        { id := "B", parent_id := some "ROOT" }]
      [⟨"A", "Connection Lost", "CRITICAL"⟩,
        ⟨"B", "Connection Lost", "CRITICAL"⟩],
      c.deviceId = "ROOT" ∧ 99 ≤ c.probability ∧
      c.type = "Network/Silent" ∧ c.verificationLog ≠ [] :=
  C1_silent_failure_detection
    [{ id := "ROOT" }, { id := "A", parent_id := some "ROOT" },
      { id := "B", parent_id := some "ROOT" }]
    [⟨"A", "Connection Lost", "CRITICAL"⟩,
      ⟨"B", "Connection Lost", "CRITICAL"⟩]
    "ROOT" { id := "A", parent_id := some "ROOT" }
    { id := "B", parent_id := some "ROOT" }
    (by decide) (by decide) (by decide) (by decide) rfl rfl
    (by decide) (by decide) (by decide)

/-! ### Claim C2 -/

/-- C2 (spec-modelled RedundancyPropagator): every confirmed root cause
(probability > 0.8, i.e. > 80 hundredths) for which propagation is not
suppressed by redundancy (no redundancy group, or every partner also
confirmed) propagates impact downward: each descendant not holding a
confirmed candidate receives a probability-0.5 candidate —
`Network/Unreachable` when it had no candidate at all, a downgrade to
`Network/Secondary` when it had one. -/
theorem C2_redundancy_cascade_propagation (topo : List NetworkNode)
    (alarms : List Alarm) (rootId d : String)
    (halarms : alarms ≠ [])
    (hroot : (SpecModel.candsAfterCascade topo alarms).any
      (fun r => r.deviceId == rootId && decide (r.probability > 80)) = true)
    (hopen : SpecModel.redundancyOpen topo
      (SpecModel.candsAfterCascade topo alarms) rootId = true)
    (hdesc : SpecModel.isDescendantB topo d rootId = true)
    (hnconf : SpecModel.confirmedFor
      (SpecModel.candsAfterCascade topo alarms) d = false) :
    ∃ c ∈ SpecModel.specAnalyze topo alarms,
      c.deviceId = d ∧ c.probability = 50 ∧
      ((∀ c0 ∈ SpecModel.candsAfterCascade topo alarms, c0.deviceId ≠ d) →
        c.type = "Network/Unreachable") ∧
      ((∃ c0 ∈ SpecModel.candsAfterCascade topo alarms, c0.deviceId = d) →
        c.type = "Network/Secondary") := by
  have himp : SpecModel.impactedB topo
      (SpecModel.candsAfterCascade topo alarms) d = true := by
    rw [SpecModel.impactedB]
    obtain ⟨r, hrmem, hrp⟩ := List.any_eq_true.mp hroot
    rw [Bool.and_eq_true] at hrp
    obtain ⟨hrid, hrprob⟩ := hrp
    rw [beq_iff_eq] at hrid
    have hany : (SpecModel.candsAfterCascade topo alarms).any
        (fun r => decide (r.probability > 80)
          && SpecModel.redundancyOpen topo
            (SpecModel.candsAfterCascade topo alarms) r.deviceId
          && SpecModel.isDescendantB topo d r.deviceId) = true := by
      refine List.any_eq_true.mpr ⟨r, hrmem, ?_⟩
      rw [hrid, hrprob, hopen, hdesc]
      rfl
    rw [hany, hnconf]
    rfl
  by_cases hex : ∃ c0 ∈ SpecModel.candsAfterCascade topo alarms, c0.deviceId = d
  · obtain ⟨c0, hc0mem, hc0id⟩ := hex
    have hc0le : c0.probability ≤ 80 := by
      by_contra hgt
      push_neg at hgt
      rw [SpecModel.confirmedFor, List.any_eq_false] at hnconf
      exact hnconf c0 hc0mem (by simp [hc0id, hgt])
    refine ⟨{ c0 with
        type := "Network/Secondary"
        label := "impacted by upstream failure"
        probability := 50 },
      mem_specAnalyze_of_mem_propagate topo alarms _ halarms ?_,
      hc0id, rfl, ?_, fun _ => rfl⟩
    · simp only [SpecModel.propagate]
      refine List.mem_append.mpr (Or.inl ?_)
      refine List.mem_map.mpr ⟨c0, hc0mem, ?_⟩
      have hcond : (SpecModel.impactedB topo
          (SpecModel.candsAfterCascade topo alarms) c0.deviceId
            && decide (c0.probability ≤ 80)) = true := by
        rw [hc0id, himp]
        simp [hc0le]
      simp [hcond]
    · intro hall
      exact absurd hc0id (hall c0 hc0mem)
  · have hall : ∀ c0 ∈ SpecModel.candsAfterCascade topo alarms,
        c0.deviceId ≠ d := by
      intro c0 hc0 heq
      exact hex ⟨c0, hc0, heq⟩
    have hany0 : (SpecModel.candsAfterCascade topo alarms).any
        (fun c => c.deviceId == d) = false := by
      rw [List.any_eq_false]
      intro c hc
      simp [hall c hc]
    have hdmem : d ∈ topo.map NetworkNode.id :=
      isDescendantB_mem topo d rootId hdesc
    refine ⟨⟨d, "Network/Unreachable", "Unreachable due to upstream failure",
        50, 3, ["Parent node failure"], []⟩,
      mem_specAnalyze_of_mem_propagate topo alarms _ halarms ?_,
      rfl, rfl, fun _ => rfl, ?_⟩
    · simp only [SpecModel.propagate]
      refine List.mem_append.mpr (Or.inr ?_)
      refine List.mem_map.mpr ⟨d, ?_, rfl⟩
      refine List.mem_filter.mpr ⟨hdmem, ?_⟩
      rw [himp, hany0]
      rfl
    · intro hex2
      obtain ⟨c0, hc0mem, hc0id⟩ := hex2
      exact absurd hc0id (hall c0 hc0mem)

/-- C2 witness: the spec's redundancy-cascade test — `FW1`, `FW2` in
one HA group both confirmed root causes (score 0.97 > 0.8), so the
descendant `AP1` of `FW1` receives an `Unreachable`/`Secondary`
candidate at probability exactly 0.5. -/
theorem C2_witness :
    ∃ c ∈ SpecModel.specAnalyze
      [{ id := "FW1", redundancy_group := some "HA" },
        { id := "FW2", redundancy_group := some "HA" },
        { id := "SW1", parent_id := some "FW1" },
        { id := "AP1", parent_id := some "SW1" }]
      [⟨"FW1", "Power Supply Unit Failed", "CRITICAL"⟩,
        ⟨"FW2", "Power Supply Unit Failed", "CRITICAL"⟩],
      c.deviceId = "AP1" ∧ c.probability = 50 ∧
      ((∀ c0 ∈ SpecModel.candsAfterCascade
          [{ id := "FW1", redundancy_group := some "HA" },
            { id := "FW2", redundancy_group := some "HA" },
            { id := "SW1", parent_id := some "FW1" },
            { id := "AP1", parent_id := some "SW1" }]
          [⟨"FW1", "Power Supply Unit Failed", "CRITICAL"⟩,
            ⟨"FW2", "Power Supply Unit Failed", "CRITICAL"⟩],
          c0.deviceId ≠ "AP1") → c.type = "Network/Unreachable") ∧
      ((∃ c0 ∈ SpecModel.candsAfterCascade
          [{ id := "FW1", redundancy_group := some "HA" },
            { id := "FW2", redundancy_group := some "HA" },
            { id := "SW1", parent_id := some "FW1" },
            { id := "AP1", parent_id := some "SW1" }]
          [⟨"FW1", "Power Supply Unit Failed", "CRITICAL"⟩,
            ⟨"FW2", "Power Supply Unit Failed", "CRITICAL"⟩],
          c0.deviceId = "AP1") → c.type = "Network/Secondary") :=
  C2_redundancy_cascade_propagation
    [{ id := "FW1", redundancy_group := some "HA" },
      { id := "FW2", redundancy_group := some "HA" },
      { id := "SW1", parent_id := some "FW1" },
      { id := "AP1", parent_id := some "SW1" }]
    [⟨"FW1", "Power Supply Unit Failed", "CRITICAL"⟩,
      ⟨"FW2", "Power Supply Unit Failed", "CRITICAL"⟩]
    "FW1" "AP1" (by decide) (by decide) (by decide) (by decide) (by decide)

end AIOps
